import Mathlib

/-!
Shallow embedding of the process-supervision and resilience subsystem of the
OxichStudio repository, together with theorems settling the specification
claims about it.

Modelled source files:
- src/electron/utils/ServerMonitor.js (health monitoring)
- src/electron/utils/ErrorHandler.js (failure classification and recovery)
- src/electron/utils/NetworkManager.js (port negotiation)
- src/electron/main.js and src/unnamed/part_004 (server lifecycle:
  startNextJsServer, stopNextJsServer, getServerStatus)

Timers, HTTP probes and child processes are modelled by explicit state
passing: each JavaScript callback becomes a state-transition function, the
outcome of an HTTP probe or of a spawn becomes an explicit argument, and
every emitted event or side effect is collected in a list so that theorems
can count emissions.  Millisecond intervals that undergo the multiplicative
backoff (times 1.5) are modelled as rationals, matching the exact
floating-point arithmetic of the source on the reachable values.
-/

namespace Oxich

/-! ## ServerMonitor (src/electron/utils/ServerMonitor.js) -/

/-- The performanceMetrics object of ServerMonitor (constructor lines 20-27). -/
structure PerformanceMetrics where
  uptime : Nat
  responseTime : Nat
  memoryUsage : Nat
  cpuUsage : Nat
  requestCount : Nat
  errorCount : Nat
deriving Repr, DecidableEq

/-- The zero metrics object the constructor and resetMetrics install. -/
def PerformanceMetrics.zero : PerformanceMetrics :=
  { uptime := 0, responseTime := 0, memoryUsage := 0, cpuUsage := 0
    requestCount := 0, errorCount := 0 }

/-- Mutable fields of a ServerMonitor instance.  `monitorInterval` is the
live repeating timer together with its period (none models the null timer
handle); `healthCheckInterval` is the interval field, in milliseconds, as a
rational because the source multiplies it by 1.5. -/
structure MonitorState where
  isMonitoring : Bool
  monitorInterval : Option ℚ
  healthCheckInterval : ℚ
  defaultHealthCheckInterval : ℚ
  maxRetries : Nat
  retryCount : Nat
  serverProcess : Option Nat
  serverPort : Option Nat
  serverHostname : String
  startTime : Nat
  lastHealthCheck : Option Nat
  performanceMetrics : PerformanceMetrics
deriving Repr, DecidableEq

/-- Field values installed by the ServerMonitor constructor. -/
def MonitorState.initial : MonitorState :=
  { isMonitoring := false, monitorInterval := none
    healthCheckInterval := 5000, defaultHealthCheckInterval := 5000
    maxRetries := 3, retryCount := 0
    serverProcess := none, serverPort := none, serverHostname := ""
    startTime := 0, lastHealthCheck := none
    performanceMetrics := .zero }

/-- Events emitted by ServerMonitor through its EventEmitter interface. -/
inductive MonitorEvent
  | monitoringStarted (port : Nat)
  | monitoringStopped
  | healthCheckFailed (retryCount maxRetries : Nat)
  | serverUnhealthy (retryCount : Nat) (metrics : PerformanceMetrics)
  | healthCheckSuccess (responseTime : Nat)
  | serverCrashed (uptime : Nat)
  | metricsReset
deriving Repr, DecidableEq

/-- Recognizer for the server-unhealthy event (used to count emissions). -/
def MonitorEvent.isUnhealthy : MonitorEvent → Bool
  | .serverUnhealthy _ _ => true
  | _ => false

namespace ServerMonitor

/-- stopMonitoring (ServerMonitor.js lines 87-100): idempotent teardown of
the polling timer. -/
def stopMonitoring (s : MonitorState) : MonitorState × List MonitorEvent :=
  if !s.isMonitoring then (s, [])
  else ({ s with isMonitoring := false, monitorInterval := none },
        [.monitoringStopped])

/-- startMonitoring (ServerMonitor.js lines 33-82), synchronous part: the
body executed before the 8-second initial-delay callback fires.  `now` is
Date.now() at the call. -/
def startMonitoring (s : MonitorState) (serverProcess : Option Nat)
    (port : Nat) (now : Nat) : MonitorState × List MonitorEvent :=
  let (s, evs) := if s.isMonitoring then stopMonitoring s else (s, [])
  ({ s with serverProcess := serverProcess, serverPort := some port
            serverHostname := "localhost", startTime := now
            isMonitoring := true, retryCount := 0 },
   evs ++ [.monitoringStarted port])

/-- The 8-second setTimeout callback inside startMonitoring (lines 52-68):
if still monitoring, set the interval to the 10-second initial value and
create the repeating timer. -/
def initialDelayElapsed (s : MonitorState) : MonitorState :=
  if s.isMonitoring then
    { s with healthCheckInterval := 10000, monitorInterval := some 10000 }
  else s

/-- handleHealthCheckFailure (ServerMonitor.js lines 203-247).  Increments
the consecutive-failure and error counters, emits health-check-failed, and
on reaching maxRetries emits server-unhealthy once, backs the interval off
by 1.5 capped at 30000 ms, recreates the timer when one is live, and resets
the consecutive counter. -/
def handleHealthCheckFailure (s : MonitorState) :
    MonitorState × List MonitorEvent :=
  let retryCount := s.retryCount + 1
  let metrics :=
    { s.performanceMetrics with
        errorCount := s.performanceMetrics.errorCount + 1 }
  let s := { s with retryCount := retryCount, performanceMetrics := metrics }
  let evs := [MonitorEvent.healthCheckFailed retryCount s.maxRetries]
  if s.maxRetries ≤ retryCount then
    let evs := evs ++ [MonitorEvent.serverUnhealthy retryCount metrics]
    let newInterval := min (s.healthCheckInterval * (3 / 2 : ℚ)) 30000
    let s := { s with healthCheckInterval := newInterval }
    let s :=
      if s.monitorInterval.isSome then
        { s with monitorInterval := some newInterval }
      else s
    ({ s with retryCount := 0 }, evs)
  else
    (s, evs)

/-- performHealthCheck (ServerMonitor.js lines 105-162).  `now` is
Date.now() at the end of the probe, `responseTime` its measured latency,
`rss` the resident-set size read on success, and `isHealthy` the outcome of
checkServerHealth (a response with any status code counts as healthy). -/
def performHealthCheck (s : MonitorState) (now responseTime rss : Nat)
    (isHealthy : Bool) : MonitorState × List MonitorEvent :=
  if !s.isMonitoring || s.serverPort.isNone then (s, [])
  else
    let m := { s.performanceMetrics with
                 responseTime := responseTime
                 uptime := now - s.startTime }
    let s := { s with lastHealthCheck := some now, performanceMetrics := m }
    if isHealthy then
      let m := { m with requestCount := m.requestCount + 1 }
      let s := { s with retryCount := 0, performanceMetrics := m }
      let s :=
        if s.defaultHealthCheckInterval < s.healthCheckInterval then
          let s := { s with
                       healthCheckInterval := s.defaultHealthCheckInterval }
          if s.monitorInterval.isSome then
            { s with monitorInterval := some s.defaultHealthCheckInterval }
          else s
        else s
      let s :=
        if s.serverProcess.isSome then
          { s with performanceMetrics :=
              { s.performanceMetrics with memoryUsage := rss } }
        else s
      (s, [.healthCheckSuccess responseTime])
    else
      handleHealthCheckFailure s

/-- The report returned by getPerformanceMetrics (lines 285-293). -/
structure MetricsReport where
  metrics : PerformanceMetrics
  isHealthy : Bool
  lastHealthCheck : Option Nat
  monitoringStarted : Nat
  isMonitoring : Bool
deriving Repr, DecidableEq

/-- getPerformanceMetrics (ServerMonitor.js lines 285-293): isHealthy is
literally `retryCount === 0`. -/
def getPerformanceMetrics (s : MonitorState) : MetricsReport :=
  { metrics := s.performanceMetrics
    isHealthy := s.retryCount == 0
    lastHealthCheck := s.lastHealthCheck
    monitoringStarted := s.startTime
    isMonitoring := s.isMonitoring }

/-- resetMetrics (ServerMonitor.js lines 334-348): zeroes the metrics
object, the consecutive-failure counter and the start timestamp. -/
def resetMetrics (s : MonitorState) (now : Nat) :
    MonitorState × List MonitorEvent :=
  ({ s with performanceMetrics := .zero, retryCount := 0, startTime := now },
   [.metricsReset])

end ServerMonitor

/-! ## ErrorHandler (src/electron/utils/ErrorHandler.js) -/

/-- A raised JavaScript error as the classifier sees it: an optional
`code` property and a `message` string. -/
structure JsError where
  code : Option String
  message : String
deriving Repr, DecidableEq

/-- Whether `pat` is an initial segment of `s` (on character lists). -/
def charsBeginWith : List Char → List Char → Bool
  | [], _ => true
  | _ :: _, [] => false
  | p :: ps, c :: cs => p == c && charsBeginWith ps cs

/-- Whether `pat` occurs as a contiguous run inside `s`. -/
def charsContain : List Char → List Char → Bool
  | [], pat => pat.isEmpty
  | c :: cs, pat => charsBeginWith pat (c :: cs) || charsContain cs pat

/-- JavaScript `s.includes(pat)`. -/
def containsSub (s pat : String) : Bool := charsContain s.toList pat.toList

/-- JavaScript `s.toLowerCase()` on the ASCII range. -/
def toLowerStr (s : String) : String := ⟨s.toList.map Char.toLower⟩

/-- The seven error categories of categorizeError. -/
inductive ErrCategory
  | network | system | port | validation | configuration | server | generic
deriving Repr, DecidableEq

/-- The four severities of determineSeverity. -/
inductive Severity
  | critical | high | medium | low
deriving Repr, DecidableEq

namespace ErrorHandler

/-- categorizeError (ErrorHandler.js lines 66-101): ordered checks on the
error code and the lowercased message. -/
def categorizeError (e : JsError) : ErrCategory :=
  let code := e.code
  let message := toLowerStr e.message
  if code == some "ECONNREFUSED" || code == some "ENOTFOUND" ||
     code == some "ETIMEDOUT" || code == some "ECONNRESET" then
    .network
  else if code == some "ENOENT" || code == some "EACCES" ||
          code == some "EPERM" || code == some "EMFILE" then
    .system
  else if code == some "EADDRINUSE" || containsSub message "port" ||
          containsSub message "address" then
    .port
  else if containsSub message "invalid" || containsSub message "validation" then
    .validation
  else if containsSub message "config" || containsSub message "setting" then
    .configuration
  else if containsSub message "server" || containsSub message "http" then
    .server
  else
    .generic

/-- determineSeverity (ErrorHandler.js lines 106-126): severity is computed
from the category alone. -/
def determineSeverity (e : JsError) : Severity :=
  let type := categorizeError e
  if type == .system || type == .configuration then .critical
  else if type == .server || type == .port then .high
  else if type == .network || type == .validation then .medium
  else .low

/-- isRecoverable (ErrorHandler.js lines 169-188). -/
def isRecoverable (e : JsError) : Bool :=
  let code := e.code
  let type := categorizeError e
  if type == .network then true
  else if code == some "ENOENT" || code == some "EACCES" ||
          code == some "EPERM" then false
  else if containsSub e.message "FATAL" || containsSub e.message "CRITICAL" then
    false
  else if type == .port then true
  else true

/-- Outcomes of the external collaborators a recovery strategy consults. -/
structure RecoveryEnv where
  networkReachable : Bool
  portAlternatives : List Nat
  configResetOk : Bool
deriving Repr, DecidableEq

/-- Observable side effects of a recovery attempt (configuration writes,
emitted events, warnings logged). -/
inductive RecEffect
  | maxAttemptsWarning (t : ErrCategory) (attempts : Nat)
  | configPortSet (p : Nat)
  | portChangedAutomatically (oldPort newPort : Nat)
  | configReset
  | serverRecoveryNeeded
  | recoverySuccess (t : ErrCategory)
deriving Repr, DecidableEq

/-- recoverFromNetworkError (lines 302-315): succeeds only when the
connectivity probe succeeds. -/
def recoverFromNetworkError (env : RecoveryEnv) : Bool × List RecEffect :=
  (env.networkReachable, [])

/-- recoverFromPortError (lines 320-340): asks for one alternative port and
on success persists it and signals the change. -/
def recoverFromPortError (env : RecoveryEnv) (currentPort : Nat) :
    Bool × List RecEffect :=
  match env.portAlternatives with
  | [] => (false, [])
  | newPort :: _ =>
      (true, [.configPortSet newPort,
              .portChangedAutomatically currentPort newPort])

/-- recoverFromConfigError (lines 345-356): resets configuration to
defaults; a throwing reset counts as failure. -/
def recoverFromConfigError (env : RecoveryEnv) : Bool × List RecEffect :=
  if env.configResetOk then (true, [.configReset]) else (false, [])

/-- recoverFromServerError (lines 361-365): emits server-recovery-needed
and reports failure. -/
def recoverFromServerError : Bool × List RecEffect :=
  (false, [.serverRecoveryNeeded])

/-- genericRecovery (lines 370-373): no automatic recovery. -/
def genericRecovery : Bool × List RecEffect := (false, [])

/-- The switch on the category inside attemptRecovery (lines 268-283). -/
def runStrategy (env : RecoveryEnv) (currentPort : Nat) (t : ErrCategory) :
    Bool × List RecEffect :=
  match t with
  | .network => recoverFromNetworkError env
  | .port => recoverFromPortError env currentPort
  | .configuration => recoverFromConfigError env
  | .server => recoverFromServerError
  | _ => genericRecovery

/-- Mutable fields of an ErrorHandler instance relevant to recovery:
`recoveryAttempts` models the Map from category to attempt count
(a missing key reads as 0, matching `get(type) || 0`). -/
structure HandlerState where
  errorHistory : List JsError
  recoveryAttempts : ErrCategory → Nat

/-- attemptRecovery (ErrorHandler.js lines 253-297).  Refuses with a logged
warning once the per-category counter has reached 3; otherwise increments
the counter, runs the category strategy, and deletes the counter entry on
success. -/
def attemptRecovery (env : RecoveryEnv) (currentPort : Nat)
    (st : HandlerState) (t : ErrCategory) :
    HandlerState × Bool × List RecEffect :=
  let attempts := st.recoveryAttempts t
  if 3 ≤ attempts then
    (st, false, [.maxAttemptsWarning t attempts])
  else
    let counts := fun c => if c = t then attempts + 1 else st.recoveryAttempts c
    let (success, effs) := runStrategy env currentPort t
    if success then
      ({ st with recoveryAttempts := fun c => if c = t then 0 else counts c },
       true, effs ++ [.recoverySuccess t])
    else
      ({ st with recoveryAttempts := counts }, false, effs)

/-- clearErrorHistory (ErrorHandler.js lines 433-437): clears the history
and every recovery-attempt counter. -/
def clearErrorHistory (st : HandlerState) : HandlerState :=
  { st with errorHistory := [], recoveryAttempts := fun _ => 0 }

end ErrorHandler

/-! ## Server lifecycle (src/electron/main.js and src/unnamed/part_004)

Both files define the same module-level mutable variables
(`nextJsProcess`, `serverPort`) and the functions startNextJsServer,
stopNextJsServer and getServerStatus; they differ in the startup-timeout
duration and in part_004's additional HTTP readiness polling and tray
updates.  The model below covers the behaviour the claims are about. -/

/-- A spawned child-process handle (pid plus the `killed` flag consulted by
getServerStatus). -/
structure ChildProcess where
  pid : Nat
  killed : Bool
deriving Repr, DecidableEq

/-- The module-level mutable state of main.js: the tracked handle, the
`serverPort` variable, the value persisted in the configuration store
under server.port, and a ghost counter of spawn() invocations. -/
structure MainState where
  nextJsProcess : Option ChildProcess
  serverPort : Nat
  configServerPort : Nat
  spawnCount : Nat
deriving Repr, DecidableEq

/-- main.js state before any server was started (server.port defaults
to 8080). -/
def MainState.initial : MainState :=
  { nextJsProcess := none, serverPort := 8080, configServerPort := 8080
    spawnCount := 0 }

/-- The instance methods defined by class NetworkManager
(src/electron/utils/NetworkManager.js).  startNextJsServer dispatches its
port-negotiation call against this table; a name missing from it evaluates
to undefined and invoking it raises a TypeError. -/
def networkManagerMethods : List String :=
  ["findAvailablePort", "isPortAvailable", "findPreferredPort",
   "getLocalIPAddress", "getAllLocalIPs", "testNetworkConnectivity",
   "testServerResponse", "generateAccessUrls", "requiresAdminPrivileges",
   "isPrivateIP", "getNetworkInfo", "suggestAlternativePorts",
   "checkFirewallStatus", "getNetworkDebugInfo", "refreshNetworkCache"]

/-- The call `networkManager.findAvailablePorts(serverPort, 5)` issued at
main.js line 229 (part_004 line 231).  `wouldReturn` is the list the method
would produce if it existed; the dispatch fails with a TypeError when the
name is not a NetworkManager method. -/
def findAvailablePortsCall (wouldReturn : List Nat) :
    Except Unit (List Nat) :=
  if networkManagerMethods.contains "findAvailablePorts" then .ok wouldReturn
  else .error ()

/-- Environment of one startNextJsServer invocation: configuration reads,
the filesystem check, the port-availability probe and the pid the spawn
would produce. -/
structure StartEnv where
  enableLan : Bool
  serverFileExists : Bool
  portFree : Nat → Bool
  alternatives : List Nat
  spawnPid : Nat

/-- Rejection reasons of the synchronous phase of startNextJsServer. -/
inductive StartError
  | missingFiles
  | portNoAlternatives (port : Nat)
  | unexpectedError
deriving Repr, DecidableEq

/-- Result of the synchronous phase of startNextJsServer: either the
promise was rejected before any spawn, or a child was spawned and the
promise is left pending for the readiness callbacks. -/
inductive StartOutcome
  | rejected (e : StartError)
  | pending (pid : Nat)
deriving Repr, DecidableEq

/-- startNextJsServer, synchronous phase (main.js lines 187-266, part_004
lines 189-268): reload server.port from configuration, check the server
artifact on disk, run the port pre-flight, then spawn.  The function
consults no active-handle guard: the source never reads nextJsProcess
before assigning it.  The pre-flight calls the nonexistent
networkManager.findAvailablePorts; the resulting TypeError is caught by the
enclosing try/catch, which rejects with the generic unexpected-error
message. -/
def startNextJsServer (env : StartEnv) (st : MainState) :
    StartOutcome × MainState :=
  let st := { st with serverPort := st.configServerPort }
  if !env.serverFileExists then
    (.rejected .missingFiles, st)
  else
    let preflight : Except StartError MainState :=
      if !(env.portFree st.serverPort) then
        match findAvailablePortsCall env.alternatives with
        | .error () => .error .unexpectedError
        | .ok alts =>
          match alts with
          | [] => .error (.portNoAlternatives st.serverPort)
          | newPort :: _ =>
              .ok { st with serverPort := newPort
                            configServerPort := newPort }
      else .ok st
    match preflight with
    | .error e => (.rejected e, st)
    | .ok st =>
        (.pending env.spawnPid,
         { st with nextJsProcess := some ⟨env.spawnPid, false⟩
                   spawnCount := st.spawnCount + 1 })

/-- The startup-timeout duration registered by startNextJsServer in
src/electron/main.js line 282: 60000 ms. -/
def mainStartupTimeoutMs : Nat := 60000

/-- The startup-timeout duration registered by the part_004 variant
(line 330): 30000 ms. -/
def part004StartupTimeoutMs : Nat := 30000

/-- The isResolved flag shared by the readiness and failure callbacks of a
pending startNextJsServer promise. -/
structure PendingStart where
  isResolved : Bool
deriving Repr, DecidableEq

/-- Side effects of settling a pending start. -/
inductive SettleEffect
  | killChild (pid : Nat)
  | rejectTimeout
deriving Repr, DecidableEq

/-- The startup-timeout callback (main.js lines 272-282, part_004 lines
318-330): when the promise is still unsettled it kills the child, clears
the handle and rejects; once settled it does nothing. -/
def serverStartupTimeoutFires (st : MainState) (p : PendingStart) :
    MainState × PendingStart × List SettleEffect :=
  if p.isResolved then (st, p, [])
  else
    let kills :=
      match st.nextJsProcess with
      | some c => [SettleEffect.killChild c.pid]
      | none => []
    ({ st with nextJsProcess := none }, { isResolved := true },
     kills ++ [.rejectTimeout])

/-- The fetch condition `response.ok || response.status < 500` used by
getServerStatus and stopNextJsServer. -/
def responseAccepted (status : Nat) : Bool :=
  (200 ≤ status && status < 300) || status < 500

/-- The pid field of a status report: a number, the literal string
"external", or null. -/
inductive PidReport
  | pid (n : Nat)
  | external
  | noPid
deriving Repr, DecidableEq

/-- The record returned by getServerStatus. -/
structure ServerStatus where
  running : Bool
  port : Nat
  hostname : String
  pid : PidReport
  status : String
deriving Repr, DecidableEq

/-- getServerStatus (main.js lines 635-668, part_004 lines 986-1020).
`probe` is the outcome of the one-shot HTTP HEAD of the configured port:
none when the fetch rejects (nothing answering), some status when a
response arrived. -/
def getServerStatus (probe : Option Nat) (st : MainState) : ServerStatus :=
  let processRunning :=
    match st.nextJsProcess with
    | some c => !c.killed
    | none => false
  let fallback : ServerStatus :=
    { running := processRunning, port := st.serverPort
      hostname := "127.0.0.1"
      pid := match st.nextJsProcess with
             | some c => .pid c.pid
             | none => .noPid
      status := if processRunning then "running" else "stopped" }
  if !processRunning then
    match probe with
    | some status =>
        if responseAccepted status then
          { running := true, port := st.serverPort, hostname := "127.0.0.1"
            pid := .external, status := "running-external" }
        else fallback
    | none => fallback
  else fallback

/-- Environment of one stopNextJsServer invocation. -/
structure StopEnv where
  probe : Option Nat
  platformWin32 : Bool
  killThrows : Bool
deriving Repr

/-- Observable effects of stopNextJsServer. -/
inductive StopEffect
  | stopMonitoring
  | sigtermSent (pid : Nat)
  | externalKillAttempt
  | shutdownInitiatedLogged
deriving Repr, DecidableEq

/-- stopNextJsServer (main.js lines 433-530, part_004 lines 520-618).
Every operation that can throw (the SIGTERM kill, the HTTP probe, the
platform-specific external kill) is individually wrapped in try/catch in
the source, so the function always resolves: the result is .ok in every
branch. -/
def stopNextJsServer (env : StopEnv) (st : MainState) :
    Except Unit Unit × MainState × List StopEffect :=
  let (st, effs, processKilled) :=
    match st.nextJsProcess with
    | some c =>
        let effs := [StopEffect.stopMonitoring]
        let (effs, killed) :=
          if env.killThrows then (effs, false)
          else (effs ++ [StopEffect.sigtermSent c.pid], true)
        ({ st with nextJsProcess := none }, effs, killed)
    | none => (st, [], false)
  let (effs, processKilled) :=
    match env.probe with
    | some status =>
        if responseAccepted status then
          (effs ++
             (if env.platformWin32 then [StopEffect.externalKillAttempt]
              else []),
           processKilled)
        else (effs, processKilled)
    | none => (effs, true)
  let effs :=
    if processKilled then effs ++ [StopEffect.shutdownInitiatedLogged]
    else effs
  (.ok (), st, effs)

/-! ## Concrete sample inputs used by witnesses and counterexamples -/

/-- The severity table of spec section 4.4: system/configuration critical,
server/port high, network/validation medium, else low. -/
def severityOfCategory : ErrCategory → Severity
  | .system | .configuration => .critical
  | .server | .port => .high
  | .network | .validation => .medium
  | _ => .low

/-- An EADDRINUSE error as Node raises it on a occupied listen port. -/
def errAddrInUse : JsError :=
  { code := some "EADDRINUSE"
    message := "listen EADDRINUSE: address already in use 127.0.0.1:8080" }

/-- An EACCES error as Node raises it on a privileged listen port. -/
def errAccess : JsError :=
  { code := some "EACCES"
    message := "listen EACCES: permission denied 0.0.0.0:80" }

/-- A generic error carrying no recognized code or keyword. -/
def errGeneric : JsError :=
  { code := none, message := "Something unexpected happened" }

/-- A recovery environment in which every strategy fails: the network is
unreachable, no alternative port exists, and the configuration reset
throws. -/
def failingRecoveryEnv : ErrorHandler.RecoveryEnv :=
  { networkReachable := false, portAlternatives := [], configResetOk := false }

/-- A fresh ErrorHandler state: empty history, empty attempts map. -/
def handlerState0 : ErrorHandler.HandlerState :=
  { errorHistory := [], recoveryAttempts := fun _ => 0 }

/-- A monitor that has been polling at the 10-second initial interval:
the state right after startMonitoring and its initial-delay callback. -/
def sampleMonitorState : MonitorState :=
  { isMonitoring := true, monitorInterval := some 10000
    healthCheckInterval := 10000, defaultHealthCheckInterval := 5000
    maxRetries := 3, retryCount := 0
    serverProcess := some 42, serverPort := some 8080
    serverHostname := "localhost", startTime := 1000, lastHealthCheck := none
    performanceMetrics := .zero }

/-- A monitor that has already served traffic: nonzero cumulative request,
error and latency metrics. -/
def monitorStateWithTraffic : MonitorState :=
  { MonitorState.initial with
      performanceMetrics :=
        { PerformanceMetrics.zero with
            requestCount := 7, errorCount := 2, responseTime := 33 } }

/-- A start environment in which the artifact exists, every port probes
free, and the spawn would produce pid 101. -/
def demoStartEnv : StartEnv :=
  { enableLan := false, serverFileExists := true, portFree := fun _ => true
    alternatives := [], spawnPid := 101 }

/-- The same environment for an immediately following second start call,
whose spawn would produce pid 102; the first spawned server has not yet
bound the port, so the probe still reports it free. -/
def demoStartEnvSecond : StartEnv :=
  { enableLan := false, serverFileExists := true, portFree := fun _ => true
    alternatives := [], spawnPid := 102 }

/-- A start environment in which the configured port 8080 is occupied and
port 8081 is free (the external occupant scenario of the spec test). -/
def occupiedPortEnv : StartEnv :=
  { enableLan := false, serverFileExists := true
    portFree := fun p => p != 8080, alternatives := [8081], spawnPid := 103 }

/-- A stop environment in which nothing answers the HTTP probe. -/
def quietStopEnv : StopEnv :=
  { probe := none, platformWin32 := true, killThrows := false }

/-- A pending start whose promise has not settled. -/
def unsettledPending : PendingStart := { isResolved := false }

/-- A main state holding a live tracked handle with pid 7. -/
def runningMainState : MainState :=
  { nextJsProcess := some ⟨7, false⟩, serverPort := 8080
    configServerPort := 8080, spawnCount := 1 }

/-- stopNextJsServer never rejects: every branch of the source wraps its
throwing operations in try/catch and the function falls through to a
normal return. -/
lemma stopNextJsServer_ok (env : StopEnv) (st : MainState) :
    (stopNextJsServer env st).1 = .ok () := by
  unfold stopNextJsServer
  rcases h : st.nextJsProcess with _ | c <;>
    rcases hp : env.probe with _ | s <;>
      cases hk : env.killThrows <;> simp [h, hp, hk]

/-! ## Claim theorems -/

/-- Claim C1: the claim says a second start while a handle is active must
reject or no-op and never spawn a second process.  The code violates this:
startNextJsServer consults no active-handle guard, so a second call issued
while the first spawn has not yet bound the port spawns again, silently
replacing the tracked handle — two spawns, and the pid-101 handle is
lost. -/
theorem C1_double_start_bug :
    (startNextJsServer demoStartEnv MainState.initial).2.nextJsProcess
        = some ⟨101, false⟩
    ∧ (startNextJsServer demoStartEnv MainState.initial).1 = .pending 101
    ∧ (startNextJsServer demoStartEnvSecond
        (startNextJsServer demoStartEnv MainState.initial).2).1
        = .pending 102
    ∧ (startNextJsServer demoStartEnvSecond
        (startNextJsServer demoStartEnv MainState.initial).2).2.nextJsProcess
        = some ⟨102, false⟩
    ∧ (startNextJsServer demoStartEnvSecond
        (startNextJsServer demoStartEnv MainState.initial).2).2.spawnCount
        = 2 := by
  decide

/-- Claim C2: the claim says that on an occupied configured port, start()
obtains alternatives, rebinds the configuration to the first one and runs
there.  The code cannot do this: it calls
networkManager.findAvailablePorts, which is not a method of NetworkManager,
so the pre-flight throws a TypeError that the enclosing try/catch converts
into a generic rejection — no rebinding, no spawn, even though a free
alternative (8081) exists. -/
theorem C2_preflight_dead_code_bug :
    networkManagerMethods.contains "findAvailablePorts" = false
    ∧ (startNextJsServer occupiedPortEnv MainState.initial).1
        = .rejected .unexpectedError
    ∧ (startNextJsServer occupiedPortEnv MainState.initial).2.configServerPort
        = 8080
    ∧ (startNextJsServer occupiedPortEnv MainState.initial).2.spawnCount = 0
    ∧ (startNextJsServer occupiedPortEnv MainState.initial).2.nextJsProcess
        = none := by
  decide

/-- Claim C6: classification is a deterministic function of the error code
and message matching the fixed table: EADDRINUSE is port/high/recoverable,
EACCES is system/critical/non-recoverable, a generic message is
generic/low, and severity is derived from the category by the
system/configuration to critical, server/port to high, network/validation
to medium, else low table. -/
theorem C6_classification_table :
    (ErrorHandler.categorizeError errAddrInUse = .port
      ∧ ErrorHandler.determineSeverity errAddrInUse = .high
      ∧ ErrorHandler.isRecoverable errAddrInUse = true)
    ∧ (ErrorHandler.categorizeError errAccess = .system
      ∧ ErrorHandler.determineSeverity errAccess = .critical
      ∧ ErrorHandler.isRecoverable errAccess = false)
    ∧ (ErrorHandler.categorizeError errGeneric = .generic
      ∧ ErrorHandler.determineSeverity errGeneric = .low)
    ∧ (∀ e : JsError, ErrorHandler.determineSeverity e
        = severityOfCategory (ErrorHandler.categorizeError e)) := by
  refine ⟨⟨by decide, by decide, by decide⟩,
          ⟨by decide, by decide, by decide⟩,
          ⟨by decide, by decide⟩, ?_⟩
  intro e
  unfold ErrorHandler.determineSeverity severityOfCategory
  cases h : ErrorHandler.categorizeError e <;> simp [h]

/-- Claim C7 counterexample: the claim states a hard startup timeout of 30
seconds, but the timeout registered by src/electron/main.js is 60000 ms
(the part_004 variant is the one using 30000 ms). -/
theorem C7_counterexample :
    mainStartupTimeoutMs = 60000 ∧ mainStartupTimeoutMs ≠ 30000 := by
  decide

/-- Claim C7 as amended: when the startup timeout fires while the promise
is unsettled, it kills the spawned child, clears the handle and rejects;
the duration is 60 seconds in src/electron/main.js and 30 seconds in the
part_004 variant. -/
theorem C7_startup_timeout (st : MainState) (p : PendingStart)
    (c : ChildProcess) (hres : p.isResolved = false)
    (hproc : st.nextJsProcess = some c) :
    serverStartupTimeoutFires st p
      = ({ st with nextJsProcess := none }, { isResolved := true },
         [.killChild c.pid, .rejectTimeout])
    ∧ mainStartupTimeoutMs = 60000 ∧ part004StartupTimeoutMs = 30000 := by
  refine ⟨?_, rfl, rfl⟩
  unfold serverStartupTimeoutFires
  rw [hres, hproc]
  simp

/-- Witness for C7: the timeout callback on a pending start with a live
pid-7 child kills it, clears the handle, and rejects. -/
theorem C7_startup_timeout_witness :
    serverStartupTimeoutFires runningMainState unsettledPending
      = ({ runningMainState with nextJsProcess := none },
         { isResolved := true }, [.killChild 7, .rejectTimeout])
    ∧ mainStartupTimeoutMs = 60000 ∧ part004StartupTimeoutMs = 30000 :=
  C7_startup_timeout runningMainState unsettledPending ⟨7, false⟩ rfl rfl

/-- Claim C8 counterexample: the claim says the health snapshot, including
the cumulative request and error counters, is reset to zero each time
monitoring (re)starts; but startMonitoring leaves performanceMetrics
untouched — restarting on a state with 7 requests, 2 errors and a 33 ms
latency keeps all three. -/
theorem C8_counterexample :
    ((ServerMonitor.startMonitoring monitorStateWithTraffic
        (some 43) 8080 5000).1.performanceMetrics.requestCount = 7
      ∧ (ServerMonitor.startMonitoring monitorStateWithTraffic
          (some 43) 8080 5000).1.performanceMetrics.errorCount = 2
      ∧ (ServerMonitor.startMonitoring monitorStateWithTraffic
          (some 43) 8080 5000).1.performanceMetrics.responseTime = 33)
    ∧ (7 ≠ 0 ∧ 2 ≠ 0 ∧ 33 ≠ 0) := by
  decide

/-- Claim C8 as amended: each time monitoring (re)starts, the
consecutive-failure counter is reset to zero and the uptime base timestamp
is rebased, but the cumulative metrics (request count, error count, last
latency) are carried over unchanged; zeroing them is done only by the
separate resetMetrics operation, which startMonitoring does not call. -/
theorem C8_start_monitoring_partial_reset (s : MonitorState)
    (proc : Option Nat) (port now : Nat) :
    ((ServerMonitor.startMonitoring s proc port now).1.retryCount = 0
      ∧ (ServerMonitor.startMonitoring s proc port now).1.startTime = now
      ∧ (ServerMonitor.startMonitoring s proc port now).1.isMonitoring = true
      ∧ (ServerMonitor.startMonitoring s proc port now).1.performanceMetrics
          = s.performanceMetrics)
    ∧ (∀ (t : MonitorState) (n : Nat),
        (ServerMonitor.resetMetrics t n).1.performanceMetrics
          = PerformanceMetrics.zero) := by
  constructor
  · unfold ServerMonitor.startMonitoring ServerMonitor.stopMonitoring
    cases h : s.isMonitoring <;> simp [h]
  · intro t n
    rfl

/-- Claim C3 counterexample: the claim says that with no live tracked
handle, an answering HTTP probe makes getServerStatus report running with
the external pid marker; but a probe answering with HTTP status 500 is an
answer the code rejects (`response.ok || response.status < 500` is false),
and the status query reports running = false. -/
theorem C3_counterexample :
    MainState.initial.nextJsProcess = none
    ∧ responseAccepted 500 = false
    ∧ (getServerStatus (some 500) MainState.initial).running = false := by
  decide

/-- Claim C3 as amended: with no live tracked handle, a probe answering
with an accepted status (ok, or below 500) yields running = true with
pid "external" and status "running-external"; when nothing answers — or
the answer's status is 500 or above — the report is running = false with
status "stopped". -/
theorem C3_status_truthful (probe : Option Nat) (st : MainState)
    (hno : st.nextJsProcess = none) :
    (∀ status : Nat, probe = some status → responseAccepted status = true →
        getServerStatus probe st
          = { running := true, port := st.serverPort, hostname := "127.0.0.1"
              pid := .external, status := "running-external" })
    ∧ (probe = none →
        (getServerStatus probe st).running = false
        ∧ (getServerStatus probe st).pid = .noPid
        ∧ (getServerStatus probe st).status = "stopped")
    ∧ (∀ status : Nat, probe = some status → responseAccepted status = false →
        (getServerStatus probe st).running = false) := by
  refine ⟨?_, ?_, ?_⟩
  · intro status hp ha
    unfold getServerStatus
    rw [hno, hp]
    simp [ha]
  · intro hp
    unfold getServerStatus
    rw [hno, hp]
    simp
  · intro status hp ha
    unfold getServerStatus
    rw [hno, hp]
    simp [ha]

/-- Witness for C3: with no tracked handle and a probe answering HTTP 200,
the status query reports the external server. -/
theorem C3_status_truthful_witness :
    (∀ status : Nat, some 200 = some status → responseAccepted status = true →
        getServerStatus (some 200) MainState.initial
          = { running := true, port := MainState.initial.serverPort
              hostname := "127.0.0.1", pid := .external
              status := "running-external" })
    ∧ (some 200 = none →
        (getServerStatus (some 200) MainState.initial).running = false
        ∧ (getServerStatus (some 200) MainState.initial).pid = .noPid
        ∧ (getServerStatus (some 200) MainState.initial).status = "stopped")
    ∧ (∀ status : Nat, some 200 = some status →
        responseAccepted status = false →
        (getServerStatus (some 200) MainState.initial).running = false) :=
  C3_status_truthful (some 200) MainState.initial rfl

/-- Claim C4: three consecutive failed probes emit the unhealthy event
exactly once (on the threshold crossing, not per probe), multiply the poll
interval by 1.5 capped at 30000 ms by recreating the timer, and reset the
consecutive-failure counter; a subsequent successful probe restores the
default 5000 ms interval. -/
theorem C4_health_backoff (i j : ℚ) (proc : Option Nat) (port t0 : Nat)
    (hn : String) (lhc : Option Nat) (pm : PerformanceMetrics)
    (hi : 5000 ≤ i) (hi30 : i ≤ 30000) :
    let s : MonitorState :=
      { isMonitoring := true, monitorInterval := some j
        healthCheckInterval := i, defaultHealthCheckInterval := 5000
        maxRetries := 3, retryCount := 0
        serverProcess := proc, serverPort := some port, serverHostname := hn
        startTime := t0, lastHealthCheck := lhc, performanceMetrics := pm }
    let r1 := ServerMonitor.handleHealthCheckFailure s
    let r2 := ServerMonitor.handleHealthCheckFailure r1.1
    let r3 := ServerMonitor.handleHealthCheckFailure r2.1
    ((r1.2 ++ r2.2 ++ r3.2).countP (·.isUnhealthy) = 1
      ∧ r1.2.countP (·.isUnhealthy) = 0
      ∧ r2.2.countP (·.isUnhealthy) = 0)
    ∧ (r3.1.healthCheckInterval = min (i * (3 / 2)) 30000
      ∧ i ≤ r3.1.healthCheckInterval
      ∧ r3.1.healthCheckInterval ≤ 30000
      ∧ r3.1.monitorInterval = some r3.1.healthCheckInterval)
    ∧ r3.1.retryCount = 0
    ∧ (∀ now rt rss : Nat,
        (ServerMonitor.performHealthCheck r3.1 now rt rss
            true).1.healthCheckInterval = 5000
        ∧ (ServerMonitor.performHealthCheck r3.1 now rt rss
            true).1.monitorInterval = some 5000) := by
  intro s r1 r2 r3
  have hmin : (5000 : ℚ) < min (i * (3 / 2)) 30000 := by
    apply lt_min
    · linarith
    · norm_num
  have hr1 : r1 = ({ s with
                     retryCount := 1,
                     performanceMetrics :=
                       { pm with errorCount := pm.errorCount + 1 } },
                   [.healthCheckFailed 1 3]) := by
    simp [r1, s, ServerMonitor.handleHealthCheckFailure]
  have hr2 : r2 = ({ s with
                     retryCount := 2,
                     performanceMetrics :=
                       { pm with errorCount := pm.errorCount + 2 } },
                   [.healthCheckFailed 2 3]) := by
    simp [r2, hr1, s, ServerMonitor.handleHealthCheckFailure]
  have hr3 : r3 = ({ s with
                     retryCount := 0,
                     healthCheckInterval := min (i * (3 / 2)) 30000,
                     monitorInterval := some (min (i * (3 / 2)) 30000),
                     performanceMetrics :=
                       { pm with errorCount := pm.errorCount + 3 } },
                   [.healthCheckFailed 3 3,
                    .serverUnhealthy 3
                      { pm with errorCount := pm.errorCount + 3 }]) := by
    simp [r3, hr2, s, ServerMonitor.handleHealthCheckFailure]
  refine ⟨⟨?_, ?_, ?_⟩, ⟨?_, ?_, ?_, ?_⟩, ?_, ?_⟩
  · rw [hr1, hr2, hr3]; simp [MonitorEvent.isUnhealthy]
  · rw [hr1]; simp [MonitorEvent.isUnhealthy]
  · rw [hr2]; simp [MonitorEvent.isUnhealthy]
  · rw [hr3]
  · rw [hr3]
    exact le_min (by linarith) hi30
  · rw [hr3]; exact min_le_right _ _
  · rw [hr3]
  · rw [hr3]
  · intro now rt rss
    rw [hr3]
    cases proc <;> constructor <;>
      simp [ServerMonitor.performHealthCheck, s, hmin]

set_option maxHeartbeats 1000000 in
/-- Witness for C4: a monitor polling at the 10-second interval; three
failed probes back it off to 15000 ms with one unhealthy emission, and a
success restores 5000 ms. -/
theorem C4_health_backoff_witness :
    let s := sampleMonitorState
    let r1 := ServerMonitor.handleHealthCheckFailure s
    let r2 := ServerMonitor.handleHealthCheckFailure r1.1
    let r3 := ServerMonitor.handleHealthCheckFailure r2.1
    ((r1.2 ++ r2.2 ++ r3.2).countP (·.isUnhealthy) = 1
      ∧ r1.2.countP (·.isUnhealthy) = 0
      ∧ r2.2.countP (·.isUnhealthy) = 0)
    ∧ (r3.1.healthCheckInterval = min (10000 * (3 / 2)) 30000
      ∧ (10000 : ℚ) ≤ r3.1.healthCheckInterval
      ∧ r3.1.healthCheckInterval ≤ 30000
      ∧ r3.1.monitorInterval = some r3.1.healthCheckInterval)
    ∧ r3.1.retryCount = 0
    ∧ (∀ now rt rss : Nat,
        (ServerMonitor.performHealthCheck r3.1 now rt rss
            true).1.healthCheckInterval = 5000
        ∧ (ServerMonitor.performHealthCheck r3.1 now rt rss
            true).1.monitorInterval = some 5000) :=
  C4_health_backoff 10000 10000 (some 42) 8080 1000 "localhost" none .zero
    (by norm_num) (by norm_num)

/-- Claim C5: the per-category recovery attempt counter is capped at 3;
with a failing strategy the first three attempts raise the counter to 1, 2
and 3, the fourth is refused with a logged warning and no mutation of
state, counters never exceed 3, a successful recovery clears the counter,
and clearErrorHistory clears it explicitly. -/
theorem C5_recovery_cap (env : ErrorHandler.RecoveryEnv) (port : Nat)
    (st : ErrorHandler.HandlerState) (t : ErrCategory)
    (hfail : (ErrorHandler.runStrategy env port t).1 = false)
    (h0 : st.recoveryAttempts t = 0)
    (hbound : ∀ c, st.recoveryAttempts c ≤ 3) :
    let r1 := ErrorHandler.attemptRecovery env port st t
    let r2 := ErrorHandler.attemptRecovery env port r1.1 t
    let r3 := ErrorHandler.attemptRecovery env port r2.1 t
    let r4 := ErrorHandler.attemptRecovery env port r3.1 t
    (r1.1.recoveryAttempts t = 1 ∧ r2.1.recoveryAttempts t = 2
      ∧ r3.1.recoveryAttempts t = 3)
    ∧ (r4.1 = r3.1 ∧ r4.2.1 = false
      ∧ r4.2.2 = [.maxAttemptsWarning t 3])
    ∧ (∀ c, r4.1.recoveryAttempts c ≤ 3)
    ∧ (∀ (env2 : ErrorHandler.RecoveryEnv) (st2 : ErrorHandler.HandlerState),
        (ErrorHandler.runStrategy env2 port t).1 = true →
        st2.recoveryAttempts t < 3 →
        (ErrorHandler.attemptRecovery env2 port st2 t).1.recoveryAttempts t
          = 0)
    ∧ (∀ st2 : ErrorHandler.HandlerState,
        (ErrorHandler.clearErrorHistory st2).recoveryAttempts t = 0) := by
  intro r1 r2 r3 r4
  rcases hrs : ErrorHandler.runStrategy env port t with ⟨succ, effs⟩
  rw [hrs] at hfail
  simp at hfail
  subst hfail
  have h1 : ∀ c, r1.1.recoveryAttempts c
      = if c = t then 1 else st.recoveryAttempts c := by
    intro c
    simp [r1, ErrorHandler.attemptRecovery, hrs, h0]
  have h2 : ∀ c, r2.1.recoveryAttempts c
      = if c = t then 2 else st.recoveryAttempts c := by
    intro c
    by_cases hc : c = t <;>
      simp [r2, ErrorHandler.attemptRecovery, hrs, h1, hc]
  have h3 : ∀ c, r3.1.recoveryAttempts c
      = if c = t then 3 else st.recoveryAttempts c := by
    intro c
    by_cases hc : c = t <;>
      simp [r3, ErrorHandler.attemptRecovery, hrs, h2, hc]
  have h4 : r4 = (r3.1, false, [.maxAttemptsWarning t 3]) := by
    simp [r4, ErrorHandler.attemptRecovery, h3]
  refine ⟨⟨?_, ?_, ?_⟩, ⟨?_, ?_, ?_⟩, ?_, ?_, ?_⟩
  · simpa using h1 t
  · simpa using h2 t
  · simpa using h3 t
  · rw [h4]
  · rw [h4]
  · rw [h4]
  · intro c
    rw [h4]
    rcases eq_or_ne c t with hc | hc
    · simp [h3, hc]
    · simpa [h3, hc] using hbound c
  · intro env2 st2 hsucc hlt
    rcases hrs2 : ErrorHandler.runStrategy env2 port t with ⟨succ2, effs2⟩
    rw [hrs2] at hsucc
    simp at hsucc
    subst hsucc
    unfold ErrorHandler.attemptRecovery
    rw [if_neg (by omega), hrs2]
    simp
  · intro st2
    rfl

/-- Witness for C5: the port category with no alternative port available;
attempts 1-3 count up, attempt 4 is refused. -/
theorem C5_recovery_cap_witness :
    let r1 := ErrorHandler.attemptRecovery failingRecoveryEnv 8080
                handlerState0 .port
    let r2 := ErrorHandler.attemptRecovery failingRecoveryEnv 8080 r1.1 .port
    let r3 := ErrorHandler.attemptRecovery failingRecoveryEnv 8080 r2.1 .port
    let r4 := ErrorHandler.attemptRecovery failingRecoveryEnv 8080 r3.1 .port
    (r1.1.recoveryAttempts .port = 1 ∧ r2.1.recoveryAttempts .port = 2
      ∧ r3.1.recoveryAttempts .port = 3)
    ∧ (r4.1 = r3.1 ∧ r4.2.1 = false
      ∧ r4.2.2 = [.maxAttemptsWarning .port 3])
    ∧ (∀ c, r4.1.recoveryAttempts c ≤ 3)
    ∧ (∀ (env2 : ErrorHandler.RecoveryEnv) (st2 : ErrorHandler.HandlerState),
        (ErrorHandler.runStrategy env2 8080 .port).1 = true →
        st2.recoveryAttempts .port < 3 →
        (ErrorHandler.attemptRecovery env2 8080 st2 .port).1.recoveryAttempts
          .port = 0)
    ∧ (∀ st2 : ErrorHandler.HandlerState,
        (ErrorHandler.clearErrorHistory st2).recoveryAttempts .port = 0) :=
  C5_recovery_cap failingRecoveryEnv 8080 handlerState0 .port rfl rfl
    (fun _ => Nat.zero_le 3)

/-- Claim C9: stopping when nothing is running (no tracked handle, nothing
answering the port probe) resolves successfully — the state is untouched,
only the shutdown log entry is produced, and stopNextJsServer never
rejects in any state. -/
theorem C9_stop_idempotent (env : StopEnv) (st : MainState)
    (hno : st.nextJsProcess = none) (hprobe : env.probe = none) :
    ((stopNextJsServer env st).1 = .ok ()
      ∧ (stopNextJsServer env st).2.1 = st
      ∧ (stopNextJsServer env st).2.2 = [.shutdownInitiatedLogged])
    ∧ (∀ (env2 : StopEnv) (st2 : MainState),
        (stopNextJsServer env2 st2).1 = .ok ()) := by
  constructor
  · simp [stopNextJsServer, hno, hprobe]
  · intro env2 st2
    exact stopNextJsServer_ok env2 st2

/-- Witness for C9: stopping the freshly initialized state with a silent
port resolves cleanly. -/
theorem C9_stop_idempotent_witness :
    ((stopNextJsServer quietStopEnv MainState.initial).1 = .ok ()
      ∧ (stopNextJsServer quietStopEnv MainState.initial).2.1
          = MainState.initial
      ∧ (stopNextJsServer quietStopEnv MainState.initial).2.2
          = [.shutdownInitiatedLogged])
    ∧ (∀ (env2 : StopEnv) (st2 : MainState),
        (stopNextJsServer env2 st2).1 = .ok ()) :=
  C9_stop_idempotent quietStopEnv MainState.initial rfl rfl

/-- Claim C10: getPerformanceMetrics defines isHealthy as retryCount == 0,
and because handleHealthCheckFailure resets the counter right after
emitting server-unhealthy, a metrics query issued after the third
consecutive failure reports isHealthy = true even though the error counter
records the three failed probes. -/
theorem C10_isHealthy_true_after_unhealthy (j : ℚ) (i : ℚ)
    (proc : Option Nat) (port t0 : Nat) (hn : String) (lhc : Option Nat)
    (pm : PerformanceMetrics) :
    let s : MonitorState :=
      { isMonitoring := true, monitorInterval := some j
        healthCheckInterval := i, defaultHealthCheckInterval := 5000
        maxRetries := 3, retryCount := 0
        serverProcess := proc, serverPort := some port, serverHostname := hn
        startTime := t0, lastHealthCheck := lhc, performanceMetrics := pm }
    let r1 := ServerMonitor.handleHealthCheckFailure s
    let r2 := ServerMonitor.handleHealthCheckFailure r1.1
    let r3 := ServerMonitor.handleHealthCheckFailure r2.1
    (∀ u : MonitorState,
        (ServerMonitor.getPerformanceMetrics u).isHealthy
          = (u.retryCount == 0))
    ∧ r3.2.countP (·.isUnhealthy) = 1
    ∧ r3.1.performanceMetrics.errorCount = pm.errorCount + 3
    ∧ (ServerMonitor.getPerformanceMetrics r3.1).isHealthy = true := by
  intro s r1 r2 r3
  have hr1 : r1 = ({ s with
                     retryCount := 1,
                     performanceMetrics :=
                       { pm with errorCount := pm.errorCount + 1 } },
                   [.healthCheckFailed 1 3]) := by
    simp [r1, s, ServerMonitor.handleHealthCheckFailure]
  have hr2 : r2 = ({ s with
                     retryCount := 2,
                     performanceMetrics :=
                       { pm with errorCount := pm.errorCount + 2 } },
                   [.healthCheckFailed 2 3]) := by
    simp [r2, hr1, s, ServerMonitor.handleHealthCheckFailure]
  have hr3 : r3 = ({ s with
                     retryCount := 0,
                     healthCheckInterval := min (i * (3 / 2)) 30000,
                     monitorInterval := some (min (i * (3 / 2)) 30000),
                     performanceMetrics :=
                       { pm with errorCount := pm.errorCount + 3 } },
                   [.healthCheckFailed 3 3,
                    .serverUnhealthy 3
                      { pm with errorCount := pm.errorCount + 3 }]) := by
    simp [r3, hr2, s, ServerMonitor.handleHealthCheckFailure]
  refine ⟨?_, ?_, ?_, ?_⟩
  · intro u
    rfl
  · rw [hr3]; simp [MonitorEvent.isUnhealthy]
  · rw [hr3]
  · rw [hr3]; rfl

end Oxich
